import Mathlib

/-!
# A verification development for `pythonDependencies.py`

This file gives a shallow embedding, in Lean 4, of the dependency-manager
script `pythonDependencies.py` and proves properties of its operations.

Modelling conventions:

* Python strings are Lean `String`s; the string-manipulation helpers the
  script builds from `re.sub`, `str.split`, `str.strip` and friends are
  re-implemented over the character list `String.data`, which makes them
  both executable and amenable to proof.
* Python `set`s are modelled as duplicate-free `List String`s built with
  `setAdd`; the script consumes its sets only through membership,
  emptiness, size and sorted iteration, all of which the list model
  reproduces faithfully (`sorted` of a Python set of distinct strings is
  the unique ascending enumeration, which `sortStrings` also computes).
* The filesystem, the interpreter's module-lookup machinery and the `pip`
  subprocess are external collaborators; they enter as explicit
  environment records (`Env`, `CheckEnv`, ...) whose fields are the
  queries the script actually makes.
* Console output is modelled: every `print(x)` of the script appends the
  exact argument string `x` to a `msgs` list in the corresponding result
  record, and every `pip install` / `pip install --upgrade` subprocess
  invocation is recorded in an `installs` / `upgrades` list.
* Lines of the requirements file are modelled newline-free (the trailing
  `"\n"` that `readlines` keeps is whitespace, stripped by the same
  `.strip()` call in every consumer, so nothing observable depends on it).
-/

namespace PyDeps

/-! ## String helpers -/

/-- The ASCII whitespace characters stripped by Python's `str.strip()`. -/
def isSpaceChar (c : Char) : Bool :=
  c = ' ' || c = '\t' || c = '\n' || c = '\r' || c = Char.ofNat 11 || c = Char.ofNat 12

/-- Python's `str.strip()` on a character list: drop whitespace from both ends. -/
def pyStrip (l : List Char) : List Char :=
  ((l.dropWhile isSpaceChar).reverse.dropWhile isSpaceChar).reverse

/-- Python's `str.strip()` on a `String`. -/
def pyStripStr (s : String) : String :=
  String.mk (pyStrip s.data)

/-- `name.split(sep)[0]`: the characters before the first occurrence of `sep`. -/
def splitHead (sep : Char) (s : String) : String :=
  String.mk (s.data.takeWhile (fun c => c ≠ sep))

/-- `module_name = name.name.split('.')[0]` (source line 92): the root module of a
dotted import target. -/
def rootModule (s : String) : String :=
  splitHead '.' s

/-- `re.sub(r'#.*$', '', req).strip()` (source line 318): drop everything from the
first `#` on, then strip whitespace. -/
def stripComment (s : String) : String :=
  pyStripStr (String.mk (s.data.takeWhile (fun c => c ≠ '#')))

/-- A version-constraint operator character, the class `[=<>~!]` of source line 332. -/
def versionOp (c : Char) : Bool :=
  c = '=' || c = '<' || c = '>' || c = '~' || c = '!'

/-- `re.split(r'[=<>~!]', package)[0].strip()` (source line 332): the base package
name of a requirement specifier. -/
def basePackage (s : String) : String :=
  pyStripStr (String.mk (s.data.takeWhile (fun c => !(versionOp c))))

/-- Does `pat` occur as a contiguous sublist of `l`? -/
def containsSub (pat : List Char) : List Char → Bool
  | [] => pat.isEmpty
  | c :: rest => pat.isPrefixOf (c :: rest) || containsSub pat rest

/-- `pat in s` for a Python substring test with a nonempty pattern. -/
def strContains (s pat : String) : Bool :=
  containsSub pat.data s.data

/-- `s.startswith(pat)`, used to state properties about manifest lines. -/
def strStarts (s pat : String) : Bool :=
  pat.data.isPrefixOf s.data

/-! ## Python sets as duplicate-free lists -/

/-- `s.add(x)` on a Python set modelled as a duplicate-free list. -/
def setAdd (l : List String) (x : String) : List String :=
  if x ∈ l then l else l ++ [x]

/-- `s.update(t)` on Python sets modelled as duplicate-free lists. -/
def setUnion (l t : List String) : List String :=
  t.foldl setAdd l

/-- Lexicographic comparison of character lists by code point, Python's string
order. -/
def lexLeChars : List Char → List Char → Bool
  | [], _ => true
  | _ :: _, [] => false
  | a :: as, b :: bs => if a < b then true else if b < a then false else lexLeChars as bs

/-- Python's `s <= t` on strings: lexicographic by code point. -/
def strLe (s t : String) : Bool :=
  lexLeChars s.data t.data

/-- Insert a string into an ascending list, keeping it ascending. -/
def insertSorted (x : String) : List String → List String
  | [] => [x]
  | y :: ys => if strLe x y then x :: y :: ys else y :: insertSorted x ys

/-- Python's `sorted` on a set of distinct strings: the ascending enumeration. -/
def sortStrings (l : List String) : List String :=
  l.foldr insertSorted []

/-! ## The static tables of the script -/

/-- `MODULE_TO_PACKAGE` (source lines 30-59): mapping of module names to package
names. -/
def MODULE_TO_PACKAGE : List (String × String) := [
  ("bs4", "beautifulsoup4"),
  ("requests_oauthlib", "requests-oauthlib"),
  ("flask_cors", "Flask-Cors"),
  ("flask_sqlalchemy", "Flask-SQLAlchemy"),
  ("flask_login", "Flask-Login"),
  ("flask_wtf", "Flask-WTF"),
  ("flask_migrate", "Flask-Migrate"),
  ("flask_restful", "Flask-RESTful"),
  ("matplotlib.pyplot", "matplotlib"),
  ("sklearn", "scikit-learn"),
  ("joblib", "scikit-learn"),
  ("tensorflow.keras", "tensorflow"),
  ("dotenv", "python-dotenv"),
  ("yaml", "pyyaml"),
  ("crypto", "pycryptodome"),
  ("dateutil", "python-dateutil"),
  ("sqlalchemy", "SQLAlchemy"),
  ("psycopg2", "psycopg2-binary"),
  ("telegram", "python-telegram-bot"),
  ("discord", "discord.py"),
  ("firebase_admin", "firebase-admin"),
  ("tkinter", "tk"),
  ("PIL", "pillow"),
  ("cv2", "opencv-python"),
  ("skimage", "scikit-image"),
  ("unittest", "unittest2"),
  ("docx", "python-docx"),
  ("pptx", "python-pptx")]

/-- `self.module_to_package.get(module, module)` (source line 256): translate
an imported module name to its distribution package name. -/
def getPackageName (m : String) : String :=
  (MODULE_TO_PACKAGE.lookup m).getD m

/-- `stdlib_modules` (source lines 142-155): the static fallback list of
standard-library module names. -/
def stdlib_modules : List String := [
  "abc", "argparse", "array", "ast", "asyncio", "base64", "builtins", "calendar",
  "collections", "concurrent", "contextlib", "copy", "csv", "ctypes", "datetime",
  "decimal", "difflib", "email", "enum", "fileinput", "fnmatch", "fractions",
  "functools", "gc", "getopt", "getpass", "glob", "hashlib", "heapq", "hmac",
  "html", "http", "importlib", "inspect", "io", "itertools", "json", "logging",
  "math", "mimetypes", "multiprocessing", "netrc", "numbers", "operator", "os",
  "pathlib", "pickle", "platform", "pprint", "queue", "random", "re", "readline",
  "reprlib", "select", "shlex", "shutil", "signal", "socket", "sqlite3",
  "statistics", "string", "struct", "subprocess", "sys", "tempfile", "threading",
  "time", "timeit", "tkinter", "token", "tokenize", "traceback", "typing",
  "unittest", "urllib", "uuid", "venv", "warnings", "wave", "weakref",
  "webbrowser", "xml", "xmlrpc", "zipfile", "zipimport", "zlib"]

/-! ## Import extraction (`extract_imports_from_file`, source lines 72-108) -/

/-- The `ast` nodes the extractor inspects: `ast.Import` carries the dotted names
being imported, `ast.ImportFrom` carries the relative-import level and the
optional source module (absent for `from . import x`). -/
inductive AstNode where
  | imp (names : List String)
  | impFrom (level : Nat) (module : Option String)
deriving DecidableEq, Repr

/-- The outcome of opening and parsing one source file: an unexpected read or
analysis exception with its message, a `SyntaxError` with its message, or the
list of `Import` / `ImportFrom` nodes that `ast.walk` yields. -/
inductive FileRead where
  | readError (e : String)
  | syntaxError (e : String)
  | parsed (nodes : List AstNode)
deriving DecidableEq, Repr

/-- One iteration of the `ast.walk` loop (source lines 87-100): add the root
modules of an `Import` node, and of a level-0 `ImportFrom` node with a truthy
module. -/
def stepNode (acc : List String) : AstNode → List String
  | .imp names => names.foldl (fun a nm => setAdd a (rootModule nm)) acc
  | .impFrom level module =>
    match module with
    | some m => if level == 0 && !(m == "") then setAdd acc (rootModule m) else acc
    | none => acc

/-- `extract_imports_from_file` (source lines 72-108): returns the set of
extracted root imports together with the diagnostics printed.  Read errors and
syntax errors yield the empty set; the final comprehension filters out empty
strings. -/
def extract_imports_from_file (file_path : String) : FileRead → List String × List String
  | .readError e => ([], ["Error analyzing " ++ file_path ++ ": " ++ e])
  | .syntaxError e => ([], ["Syntax error in " ++ file_path ++ ": " ++ e])
  | .parsed nodes => ((nodes.foldl stepNode []).filter (fun s => s ≠ ""), [])

/-! ## Standard-library classification (`is_standard_library`, lines 110-157) -/

/-- The outcome of `importlib.util.find_spec(module_name)` (source line 128):
one of the caught exceptions (`ImportError`, `AttributeError`, `ValueError`)
was raised; or the call returned `None`; or it returned a spec whose `origin`
is the given optional string (`none` models `origin is None`). -/
inductive SpecResult where
  | raised
  | noSpec
  | spec (origin : Option String)
deriving DecidableEq, Repr

/-- The external environment `is_standard_library` consults: the interpreter's
built-in module names, the project-root filesystem checks of source lines
120-125, and the module-lookup of line 128. -/
structure Env where
  builtin_module_names : List String
  py_exists : String → Bool
  pkg_exists : String → Bool
  pkg_isdir : String → Bool
  pkg_has_init : String → Bool
  find_spec : String → SpecResult

/-- `is_standard_library` (source lines 110-157), translated check for check:
built-ins, then local `.py` file, then local package directory, then the
`find_spec` lookup (`None` returns `False` outright; a standard-looking origin
returns `True`; anything else falls through), then the static fallback list. -/
def is_standard_library (env : Env) (module_name : String) : Bool :=
  if module_name ∈ env.builtin_module_names then true
  else if env.py_exists module_name then true
  else if env.pkg_exists module_name && env.pkg_isdir module_name
          && env.pkg_has_init module_name then true
  else
    match env.find_spec module_name with
    | .noSpec => false
    | .raised => stdlib_modules.contains module_name
    | .spec none => stdlib_modules.contains module_name
    | .spec (some o) =>
      if o == "" then stdlib_modules.contains module_name
      else if !(strContains o "site-packages")
              && (strContains o "lib" || strContains o "lib-dynload") then true
      else stdlib_modules.contains module_name

/-! ## The generate operation (`generate_requirements`, source lines 203-293) -/

/-- One source file the `os.walk` loop of source lines 219-235 hands to the
extractor: its path relative to the project directory (printed), its full path
(passed to `extract_imports_from_file`), and what opening and parsing it
yields.  The loop's own filtering — only `.py` files, skipping
`.git`/`.venv`/`venv`/`__pycache__`/`.idea`/`.vscode` directories and the
script's own file — happens before this list is formed. -/
structure SrcFile where
  rel : String
  path : String
  content : FileRead

/-- The inputs of one `generate_requirements` run: the strings derived from the
project location (`self.project_dir`, `os.path.basename(self.project_dir)`,
`os.path.relpath(output_file)`, `os.path.basename(output_file)`), the source
files the walk yields, the classifier's environment and the `pip show` version
oracle (`get_package_version`, source lines 159-183, whose subprocess is
modelled by this oracle directly). -/
structure GenInput where
  project_dir : String
  project_name : String
  output_rel : String
  output_base : String
  files : List SrcFile
  env : Env
  pipVersion : String → Option String

/-- `all_imports` after the walk (source lines 211-234): the union of the
per-file extracted import sets. -/
def allImports (files : List SrcFile) : List String :=
  files.foldl (fun acc f => setUnion acc (extract_imports_from_file f.path f.content).1) []

/-- `third_party` (source line 242): the detected imports that are not standard
library. -/
def thirdPartyOf (inp : GenInput) : List String :=
  (allImports inp.files).filter (fun m => is_standard_library inp.env m = false)

/-- One line of the generate loop (source lines 254-268): the requirement
specifier written for a detected module, `package>=version` when `pip show`
finds a version and the bare package name otherwise. -/
def requirementLine (pipv : String → Option String) (m : String) : String :=
  match pipv (getPackageName m) with
  | some v => getPackageName m ++ ">=" ++ v
  | none => getPackageName m

/-- `not_installed_packages` (source lines 252-267): the package names appended
when `pip show` found no version, in iteration order. -/
def notInstalledOf (pipv : String → Option String) (sortedTP : List String) : List String :=
  sortedTP.filterMap (fun m =>
    if (pipv (getPackageName m)).isNone then some (getPackageName m) else none)

/-- The per-module console lines of the generate loop (source lines 264, 268). -/
def perModuleMsgs (pipv : String → Option String) (sortedTP : List String) : List String :=
  sortedTP.map (fun m =>
    match pipv (getPackageName m) with
    | some v => "  ✓ " ++ getPackageName m ++ ">=" ++ v ++ " (installed)"
    | none => "  ! " ++ getPackageName m ++ " (not installed)")

/-- The lines written to the requirements file (source lines 271-282): the
header block, the warning block when some package is not installed, then the
requirement specifiers. -/
def manifestLines (now project_name : String)
    (not_installed requirements : List String) : List String :=
  ["# Automatically generated by pythonDependencies.py",
   "# Date: " ++ now,
   "# Project: " ++ project_name,
   ""] ++
  (if not_installed = [] then []
   else
    ["# WARNING: The following packages were detected in your code but are not installed.",
     "# Install them and regenerate this file to include version numbers.",
     "# You can install all dependencies with: pip install -r requirements.txt",
     ""]) ++
  requirements

/-- The result of a `generate_requirements` run: the returned boolean, the
lines written to the output file (`none` when the file was not written), and
the console output. -/
structure GenResult where
  ok : Bool
  manifest : Option (List String)
  msgs : List String
deriving DecidableEq, Repr

/-- The console lines of the analysis walk (source lines 213, 232 and the
extractor's own diagnostics, in print order). -/
def analyzeMsgs (files : List SrcFile) : List String :=
  ["Analyzing Python files to detect imports..."] ++
  files.flatMap (fun f =>
    ("  Analyzing: " ++ f.rel) :: (extract_imports_from_file f.path f.content).2)

/-- `generate_requirements` (source lines 203-293), with the generation
timestamp `now` (the `datetime.now().strftime(...)` string) passed in
explicitly. -/
def generate_requirements (inp : GenInput) (now : String) : GenResult :=
  if inp.files.length = 0 then
    ⟨false, none,
     analyzeMsgs inp.files ++ ["No Python files found to analyze in " ++ inp.project_dir]⟩
  else
    let third_party := thirdPartyOf inp
    if third_party = [] then
      ⟨false, none,
       analyzeMsgs inp.files ++ ["No third-party libraries detected in the code."]⟩
    else
      let sortedTP := sortStrings third_party
      let requirements := sortedTP.map (requirementLine inp.pipVersion)
      let not_installed := notInstalledOf inp.pipVersion sortedTP
      ⟨true, some (manifestLines now inp.project_name not_installed requirements),
       analyzeMsgs inp.files ++
       ["\nDetected " ++ toString third_party.length ++ " external dependencies:"] ++
       perModuleMsgs inp.pipVersion sortedTP ++
       ["\nFile " ++ inp.output_rel ++ " successfully generated.",
        "It contains " ++ toString requirements.length ++ " dependencies detected in "
          ++ toString inp.files.length ++ " Python files."] ++
       (if not_installed = [] then []
        else
         ["\nWARNING: Some packages used in your code are not installed in your environment.",
          "These packages are included in requirements.txt but without version numbers.",
          "After installing all dependencies, you should regenerate this file to include versions.",
          "\nTo install all dependencies: pip install -r " ++ inp.output_base])⟩

/-! ## The check operation (`check_and_install_dependencies`, lines 295-376) -/

/-- The inputs of one `check_and_install_dependencies` run: the path string of
the requirements file (printed in the missing-file error), its content as a
list of lines (`none` models `os.path.exists` returning false), the `pip show`
version oracle and the success of a `pip install` subprocess per package. -/
structure CheckEnv where
  requirements_path : String
  requirements_file : Option (List String)
  get_package_version : String → Option String
  pip_install_ok : String → Bool

/-- The comment-and-blank-line stripping loop of source lines 315-320: the
surviving package specifiers, in file order. -/
def parsePackages (lines : List String) : List String :=
  (lines.map stripComment).filter (fun s => s ≠ "")

/-- `missing_packages` (source lines 329-340): the specifiers whose base
package name has no installed version. -/
def missingPackages (ver : String → Option String) (packages : List String) : List String :=
  packages.filter (fun p => (ver (basePackage p)).isNone)

/-- The `✓ ... is already installed` lines of source line 338, in loop order. -/
def installedMsgs (ver : String → Option String) (packages : List String) : List String :=
  packages.filterMap (fun p =>
    (ver (basePackage p)).map (fun v =>
      "✓ " ++ basePackage p ++ " is already installed (version " ++ v ++ ")"))

/-- The result of a `check_and_install_dependencies` run: the returned
boolean, the packages passed to a `pip install` subprocess, and the console
output. -/
structure CheckResult where
  ok : Bool
  installs : List String
  msgs : List String
deriving DecidableEq, Repr

/-- `check_and_install_dependencies` (source lines 295-376). -/
def check_and_install_dependencies (env : CheckEnv) (auto_install : Bool) : CheckResult :=
  let banner := ["\n==========================================",
                 "   PYTHON DEPENDENCIES CHECKER",
                 "==========================================\n"]
  match env.requirements_file with
  | none =>
    ⟨false, [],
     banner ++ ["Error: File " ++ env.requirements_path ++ " not found.",
                "You can generate it with the --generate option.\n"]⟩
  | some lines =>
    let packages := parsePackages lines
    if packages = [] then
      ⟨true, [], banner ++ ["No dependencies found in the file.\n"]⟩
    else
      let checkMsgs := ["Found " ++ toString packages.length ++ " dependencies to check..."]
        ++ installedMsgs env.get_package_version packages
      let missing := missingPackages env.get_package_version packages
      if missing = [] then
        ⟨true, [], banner ++ checkMsgs ++ ["\n✅ All dependencies are correctly installed."]⟩
      else
        let missMsg := ["\nMissing " ++ toString missing.length ++ " dependencies: "
          ++ String.intercalate ", " missing]
        if auto_install = false then
          ⟨false, [],
           banner ++ checkMsgs ++ missMsg ++
           ["\nYou can install them manually with:",
            "pip install " ++ String.intercalate " " missing]⟩
        else
          let success := missing.all env.pip_install_ok
          ⟨success, missing,
           banner ++ checkMsgs ++ missMsg ++ ["\nInstalling missing dependencies..."] ++
           missing.flatMap (fun p =>
             ["Installing " ++ p ++ "...",
              if env.pip_install_ok p then "✓ " ++ p ++ " successfully installed."
              else "✗ Error installing " ++ p ++ ". Try installing it manually."]) ++
           (if success then
             ["\n✅ All missing dependencies have been installed.",
              "You should restart your application to load the new libraries."]
            else ["\n⚠️ Some dependencies could not be installed."])⟩

/-! ## The update operation (`update_dependencies`, source lines 378-434) -/

/-- The inputs of one `update_dependencies` run: the path string of the
requirements file, its content (`none` when absent), the success of each
`pip install --upgrade` subprocess, and the answer typed at the regenerate
prompt. -/
structure UpdateEnv where
  requirements_path : String
  requirements_file : Option (List String)
  pip_upgrade_ok : String → Bool
  answer : String

/-- The result of an `update_dependencies` run: the returned boolean, the
packages passed to a `pip install --upgrade` subprocess, the lines written
when the prompt answer leads to regeneration, and the console output. -/
structure UpdateResult where
  ok : Bool
  upgrades : List String
  manifest : Option (List String)
  msgs : List String
deriving DecidableEq, Repr

/-- `update_dependencies` (source lines 378-434).  The `y`/`yes` branch of the
regenerate prompt (source lines 426-428) re-enters `generate_requirements`,
so the generate inputs are passed along. -/
def update_dependencies (env : UpdateEnv) (ginp : GenInput) (now : String) : UpdateResult :=
  let banner := ["\n==========================================",
                 "   PYTHON DEPENDENCIES UPDATER",
                 "==========================================\n"]
  match env.requirements_file with
  | none =>
    ⟨false, [], none,
     banner ++ ["Error: File " ++ env.requirements_path ++ " not found.",
                "You can generate it with the --generate option.\n"]⟩
  | some lines =>
    let packages := (parsePackages lines).map basePackage
    if packages = [] then
      ⟨true, [], none, banner ++ ["No dependencies found to update.\n"]⟩
    else
      let updMsgs :=
        ["Updating " ++ toString packages.length ++ " packages to their latest versions..."] ++
        packages.flatMap (fun p =>
          ["Updating " ++ p ++ "...",
           if env.pip_upgrade_ok p then "✓ " ++ p ++ " successfully updated."
           else "✗ Error updating " ++ p ++ "."]) ++
        ["\nUpdate completed."]
      if env.answer.toLower = "y" ∨ env.answer.toLower = "yes" then
        let g := generate_requirements ginp now
        ⟨g.ok, packages, g.manifest, banner ++ updMsgs ++ g.msgs⟩
      else
        ⟨true, packages, none, banner ++ updMsgs⟩

/-! ## Claim-side definitions and concrete environments

The definitions that state claims (spec-side readings and the claim-named
predicates) and the concrete environments and projects used to instantiate
the statements that carry hypotheses. -/

def wfNode : AstNode → Bool
  | .imp names => names.all (fun nm => !(rootModule nm == ""))
  | .impFrom _ module =>
    match module with
    | some m => !(rootModule m == "")
    | none => true

/-- The root module names one node contributes, read off the spec: all targets
of an absolute `import`, and the source module of a `from X import Y` with
level 0; a missing module contributes nothing. -/
def specNodeRoots : AstNode → Finset String
  | .imp names => (names.map rootModule).toFinset
  | .impFrom level module =>
    if level = 0 then (module.map (fun m => ({rootModule m} : Finset String))).getD ∅ else ∅

/-- The set of root module names of all absolute import statements of a file,
read off the spec sentence for `extract_imports_from_file`. -/
def specRootImports : List AstNode → Finset String
  | [] => ∅
  | n :: rest => specNodeRoots n ∪ specRootImports rest

/-- The root modules one node contributes in the code's own loop, including
the code's `node.level == 0 and node.module` truthiness test. -/
def nodeRoots : AstNode → List String
  | .imp names => names.map rootModule
  | .impFrom level module =>
    match module with
    | some m => if level == 0 && !(m == "") then [rootModule m] else []
    | none => []

/-- Concrete nodes exercising every branch of the extractor: a multi-target
absolute import with a dotted name, a relative import, a from-import without a
module, and an absolute dotted from-import. -/
def nodesC1 : List AstNode :=
  [.imp ["os", "bs4.x"], .impFrom 1 (some "a"), .impFrom 0 none, .impFrom 0 (some "yaml.sub")]

/-- The classifier as the claim words it: (1) built-ins are standard; (2) a
same-named `.py` file or package directory at the project root is standard;
(3) a runtime lookup resolving to a path outside any packages installation
directory and inside a standard installation directory is standard; (4)
otherwise — including a lookup exception, which is "treated as not-found and
falls through to check (4)" — membership in the fixed static list decides, and
a name failing all four checks is third-party. -/
def is_standard_library_claimed (env : Env) (module_name : String) : Bool :=
  if module_name ∈ env.builtin_module_names then true
  else if env.py_exists module_name then true
  else if env.pkg_exists module_name && env.pkg_isdir module_name
          && env.pkg_has_init module_name then true
  else
    match env.find_spec module_name with
    | .spec (some o) =>
      if o == "" then stdlib_modules.contains module_name
      else if !(strContains o "site-packages")
              && (strContains o "lib" || strContains o "lib-dynload") then true
      else stdlib_modules.contains module_name
    | _ => stdlib_modules.contains module_name

/-- The classifier as the code has it, reworded per the amended claim: the
same four checks, except that a runtime lookup that completes but finds no
module makes the name third-party immediately, without consulting the static
list; only a swallowed lookup exception, a module without a location, or a
location failing the path tests fall through to the static list. -/
def is_standard_library_amended (env : Env) (module_name : String) : Bool :=
  if module_name ∈ env.builtin_module_names then true
  else if env.py_exists module_name then true
  else if env.pkg_exists module_name && env.pkg_isdir module_name
          && env.pkg_has_init module_name then true
  else if env.find_spec module_name = .noSpec then false
  else
    match env.find_spec module_name with
    | .spec (some o) =>
      if o == "" then stdlib_modules.contains module_name
      else if !(strContains o "site-packages")
              && (strContains o "lib" || strContains o "lib-dynload") then true
      else stdlib_modules.contains module_name
    | _ => stdlib_modules.contains module_name

/-- An environment in which a module is not built-in, not local, and the
runtime lookup completes but finds nothing — a Python built without Tk sees
exactly this for `tkinter`. -/
def envNoSpec : Env :=
  ⟨[], fun _ => false, fun _ => false, fun _ => false, fun _ => false, fun _ => .noSpec⟩

/-- The classifier environment of a project with no same-named local files in
which every runtime lookup raises one of the caught exceptions. -/
def envRaised : Env :=
  ⟨[], fun _ => false, fun _ => false, fun _ => false, fun _ => false, fun _ => .raised⟩

/-- A project whose single source file imports only `bs4`, with
`beautifulsoup4` installed at version 4.12.2. -/
def inpBs4 : GenInput :=
  ⟨"/proj", "proj", "requirements.txt", "requirements.txt",
   [⟨"app.py", "/proj/app.py", .parsed [.imp ["bs4"]]⟩], envRaised,
   fun p => if p = "beautifulsoup4" then some "4.12.2" else none⟩

/-- An empty project directory. -/
def inpEmpty : GenInput :=
  ⟨"/proj", "proj", "requirements.txt", "requirements.txt", [], envRaised, fun _ => none⟩

/-- A project importing both `sklearn` and `joblib`, which the alias table
maps to the same distribution `scikit-learn`; nothing is installed. -/
def inpSk : GenInput :=
  ⟨"/proj", "proj", "requirements.txt", "requirements.txt",
   [⟨"a.py", "/proj/a.py", .parsed [.imp ["sklearn"], .imp ["joblib"]]⟩], envRaised,
   fun _ => none⟩

/-- A project whose single source file imports `psycopg2`, not installed. -/
def inpPsy : GenInput :=
  ⟨"/proj", "proj", "requirements.txt", "requirements.txt",
   [⟨"a.py", "/proj/a.py", .parsed [.imp ["psycopg2"]]⟩], envRaised,
   fun _ => none⟩

/-- The check environment of the spec scenario: a manifest containing only
`nonexistent-package-xyz`, nothing installed, every install failing. -/
def cenvMiss : CheckEnv :=
  ⟨"/proj/requirements.txt", some ["nonexistent-package-xyz"], fun _ => none, fun _ => false⟩

/-- A check environment with no requirements file. -/
def cenvNone : CheckEnv :=
  ⟨"/proj/requirements.txt", none, fun _ => none, fun _ => false⟩

/-- An update environment with no requirements file. -/
def uenvNone : UpdateEnv :=
  ⟨"/proj/requirements.txt", none, fun _ => false, "n"⟩

/-- The claim's notion of a comment-or-blank line: stripping surrounding
whitespace leaves nothing, or leaves something starting with `#`. -/
def commentOrBlank (l : String) : Bool :=
  pyStripStr l == "" || strStarts (pyStripStr l) "#"

/-- A manifest of only comments and blank lines. -/
def commentLines : List String :=
  ["# generated\n", "\n", "   \n", "  # note\n", ""]

/-- A check environment holding `commentLines`. -/
def cenvComments : CheckEnv :=
  ⟨"/proj/requirements.txt", some commentLines, fun _ => none, fun _ => false⟩

/-- An update environment holding `commentLines`. -/
def uenvComments : UpdateEnv :=
  ⟨"/proj/requirements.txt", some commentLines, fun _ => false, "n"⟩

/-! ## Claim C1: exactness of import extraction -/

/-- A syntactically valid file only mentions dotted chains of identifiers
as import targets, so every extracted root module name is nonempty: this is
the shape of `ast` nodes that parsing without a syntax error guarantees. -/
theorem mem_setAdd {l : List String} {y x : String} :
    x ∈ setAdd l y ↔ x = y ∨ x ∈ l := by
  unfold setAdd
  by_cases h : y ∈ l
  · simp only [if_pos h]
    constructor
    · exact fun hx => Or.inr hx
    · rintro (rfl | hx)
      · exact h
      · exact hx
  · simp [if_neg h, List.mem_append, or_comm]

theorem mem_foldl_setAdd (names : List String) (acc : List String) (x : String) :
    x ∈ names.foldl (fun a nm => setAdd a (rootModule nm)) acc ↔
      x ∈ acc ∨ x ∈ names.map rootModule := by
  induction names generalizing acc with
  | nil => simp
  | cons nm rest ih =>
    simp only [List.foldl_cons, ih, mem_setAdd, List.map_cons, List.mem_cons]
    tauto

theorem mem_stepNode (acc : List String) (n : AstNode) (x : String) :
    x ∈ stepNode acc n ↔ x ∈ acc ∨ x ∈ nodeRoots n := by
  cases n with
  | imp names => simpa [stepNode, nodeRoots] using mem_foldl_setAdd names acc x
  | impFrom level module =>
    cases module with
    | none => simp [stepNode, nodeRoots]
    | some m =>
      by_cases h : (level == 0 && !(m == "")) = true
      · simp only [stepNode, nodeRoots, h, if_pos, mem_setAdd, List.mem_singleton]
        tauto
      · simp [stepNode, nodeRoots, h]

theorem mem_foldl_stepNode (nodes : List AstNode) (acc : List String) (x : String) :
    x ∈ nodes.foldl stepNode acc ↔ x ∈ acc ∨ ∃ n ∈ nodes, x ∈ nodeRoots n := by
  induction nodes generalizing acc with
  | nil => simp
  | cons n rest ih =>
    simp only [List.foldl_cons, ih, mem_stepNode, List.mem_cons]
    constructor
    · rintro (h | h)
      · rcases h with h | h
        · exact Or.inl h
        · exact Or.inr ⟨n, Or.inl rfl, h⟩
      · rcases h with ⟨n', hn', hx⟩
        exact Or.inr ⟨n', Or.inr hn', hx⟩
    · rintro (h | ⟨n', hn', hx⟩)
      · exact Or.inl (Or.inl h)
      · rcases hn' with rfl | hn'
        · exact Or.inl (Or.inr hx)
        · exact Or.inr ⟨n', hn', hx⟩

theorem rootModule_empty : rootModule "" = "" := rfl

theorem node_roots_filter (n : AstNode) (h : wfNode n = true) (x : String) :
    (x ∈ nodeRoots n ∧ x ≠ "") ↔ x ∈ specNodeRoots n := by
  cases n with
  | imp names =>
    simp only [wfNode, List.all_eq_true, Bool.not_eq_eq_eq_not, Bool.not_true,
      beq_eq_false_iff_ne, ne_eq] at h
    simp only [nodeRoots, specNodeRoots, List.mem_toFinset]
    constructor
    · exact fun hx => hx.1
    · intro hx
      refine ⟨hx, ?_⟩
      rcases List.mem_map.mp hx with ⟨nm, hnm, rfl⟩
      exact h nm hnm
  | impFrom level module =>
    cases module with
    | none =>
      simp [nodeRoots, specNodeRoots]
    | some m =>
      simp only [wfNode, Bool.not_eq_eq_eq_not, Bool.not_true, beq_eq_false_iff_ne, ne_eq] at h
      have hm : m ≠ "" := by
        intro hm
        subst hm
        exact h rootModule_empty
      by_cases hl : level = 0
      · subst hl
        have hmb : (m == "") = false := beq_eq_false_iff_ne.mpr hm
        have h1 : nodeRoots (.impFrom 0 (some m)) = [rootModule m] := by
          simp [nodeRoots, hmb]
        have h2 : specNodeRoots (.impFrom 0 (some m)) = {rootModule m} := by
          simp [specNodeRoots]
        rw [h1, h2]
        simp only [List.mem_singleton, Finset.mem_singleton]
        constructor
        · exact fun hx => hx.1
        · rintro rfl
          exact ⟨rfl, h⟩
      · have : (level == 0) = false := by
          simpa using hl
        simp [nodeRoots, specNodeRoots, this, hl]

/-- Claim C1: for every source file whose text parses without a syntax error,
the set returned by `extract_imports_from_file` is exactly the set of root
module names of all absolute `import` statements and all level-0
`from X import Y` statements of the file; relative imports and from-imports
without a module contribute nothing.  Well-formedness (`wfNode`) is what valid
syntax guarantees: import targets are dotted identifier chains, so their root
segment is nonempty. -/
theorem extract_imports_exact (file_path : String) (nodes : List AstNode)
    (hwf : ∀ n ∈ nodes, wfNode n = true) :
    ((extract_imports_from_file file_path (.parsed nodes)).1).toFinset =
      specRootImports nodes := by
  ext x
  simp only [extract_imports_from_file, List.mem_toFinset, List.mem_filter,
    mem_foldl_stepNode, List.not_mem_nil, false_or, decide_eq_true_eq]
  induction nodes with
  | nil => simp [specRootImports]
  | cons n rest ih =>
    have hn : wfNode n = true := hwf n (List.mem_cons_self n rest)
    have hrest : ∀ n' ∈ rest, wfNode n' = true := fun n' hn' => hwf n' (List.mem_cons.mpr (Or.inr hn'))
    have ih' := ih hrest
    simp only [specRootImports, Finset.mem_union, List.mem_cons]
    constructor
    · rintro ⟨⟨n', hn', hx⟩, hne⟩
      rcases hn' with rfl | hn'
      · exact Or.inl ((node_roots_filter n' hn x).mp ⟨hx, hne⟩)
      · exact Or.inr (ih'.mp ⟨⟨n', hn', hx⟩, hne⟩)
    · rintro (h | h)
      · rcases (node_roots_filter n hn x).mpr h with ⟨hx, hne⟩
        exact ⟨⟨n, Or.inl rfl, hx⟩, hne⟩
      · rcases ih'.mpr h with ⟨⟨n', hn', hx⟩, hne⟩
        exact ⟨⟨n', Or.inr hn', hx⟩, hne⟩

/-- Witness for claim C1 at a concrete file. -/
theorem extract_imports_exact_witness :
    (∀ n ∈ nodesC1, wfNode n = true) ∧
      ((extract_imports_from_file "a.py" (.parsed nodesC1)).1).toFinset =
        specRootImports nodesC1 :=
  ⟨by decide, extract_imports_exact "a.py" nodesC1 (by decide)⟩

/-! ## Claim C2: the classification order of `is_standard_library` -/

/-- Counterexample to claim C2 as stated: with the lookup finding no module,
the code classifies `tkinter` as third-party even though it is in the static
standard-library list, while the claimed decision order — fall through to
check (4) — classifies it as standard. -/
theorem is_standard_library_claim_counterexample :
    is_standard_library envNoSpec "tkinter" = false ∧
      is_standard_library_claimed envNoSpec "tkinter" = true := by
  constructor
  · rfl
  · rfl

/-- Claim C2 as amended: `is_standard_library` decides by the claimed order
with one change — a runtime lookup that completes but finds no module makes
the name third-party at once, bypassing the static-list fallback; the fallback
is consulted only after a swallowed lookup exception, a module without a
location, or a location failing the path tests. -/
theorem is_standard_library_matches_amended (env : Env) (module_name : String) :
    is_standard_library env module_name = is_standard_library_amended env module_name := by
  unfold is_standard_library is_standard_library_amended
  by_cases h1 : module_name ∈ env.builtin_module_names
  · simp [h1]
  · simp only [if_neg h1]
    by_cases h2 : env.py_exists module_name = true
    · simp [h2]
    · simp only [Bool.not_eq_true] at h2
      simp only [h2, Bool.false_eq_true, if_false]
      by_cases h3 : (env.pkg_exists module_name && env.pkg_isdir module_name
          && env.pkg_has_init module_name) = true
      · simp [h3]
      · simp only [Bool.not_eq_true] at h3
        simp only [h3, Bool.false_eq_true, if_false]
        cases hs : env.find_spec module_name with
        | raised => simp
        | noSpec => simp
        | spec origin => cases origin <;> simp

/-! ## Helper lemmas about `generate_requirements` -/

theorem generate_ok_iff (inp : GenInput) (now : String) :
    (generate_requirements inp now).ok = true ↔
      inp.files.length ≠ 0 ∧ thirdPartyOf inp ≠ [] := by
  unfold generate_requirements
  by_cases h1 : inp.files.length = 0
  · simp [h1]
  · by_cases h2 : thirdPartyOf inp = []
    · simp [h1, h2]
    · simp [h1, h2]

theorem generate_manifest_eq (inp : GenInput) (now : String)
    (h1 : inp.files.length ≠ 0) (h2 : thirdPartyOf inp ≠ []) :
    (generate_requirements inp now).manifest =
      some (manifestLines now inp.project_name
        (notInstalledOf inp.pipVersion (sortStrings (thirdPartyOf inp)))
        ((sortStrings (thirdPartyOf inp)).map (requirementLine inp.pipVersion))) := by
  unfold generate_requirements
  simp [h1, h2]

theorem mem_insertSorted (y x : String) (l : List String) :
    x ∈ insertSorted y l ↔ x = y ∨ x ∈ l := by
  induction l with
  | nil => simp [insertSorted]
  | cons z zs ih =>
    unfold insertSorted
    by_cases h : strLe y z = true
    · simp [h]
    · simp only [h, Bool.false_eq_true, if_false, List.mem_cons, ih]
      tauto

theorem mem_sortStrings (l : List String) (x : String) :
    x ∈ sortStrings l ↔ x ∈ l := by
  induction l with
  | nil => simp [sortStrings]
  | cons y ys ih =>
    unfold sortStrings at ih ⊢
    simp [List.foldr_cons, mem_insertSorted, ih]

theorem isPrefixOf_append_self : ∀ l r : List Char, l.isPrefixOf (l ++ r) = true
  | [], _ => by simp [List.isPrefixOf]
  | c :: cs, r => by
    show (c == c && cs.isPrefixOf (cs ++ r)) = true
    rw [isPrefixOf_append_self cs r]
    simp

/-! ## Claim C4: generate is a failing no-op without files or third-party imports -/

/-- Claim C4: if the walk finds no Python files, or finds files but no
third-party import survives classification, `generate_requirements` returns
`False`, prints a message saying which case occurred, and does not write the
requirements file. -/
theorem generate_nothing_to_do (inp : GenInput) (now : String)
    (h : inp.files.length = 0 ∨ thirdPartyOf inp = []) :
    (generate_requirements inp now).ok = false ∧
      (generate_requirements inp now).manifest = none ∧
      (("No Python files found to analyze in " ++ inp.project_dir)
          ∈ (generate_requirements inp now).msgs ∨
        "No third-party libraries detected in the code."
          ∈ (generate_requirements inp now).msgs) := by
  unfold generate_requirements
  by_cases h1 : inp.files.length = 0
  · simp [h1]
  · rcases h with h | h2
    · exact absurd h h1
    · simp [h1, h2]

/-- Witness for claim C4: the empty project directory. -/
theorem generate_nothing_to_do_witness :
    (inpEmpty.files.length = 0 ∨ thirdPartyOf inpEmpty = []) ∧
      ((generate_requirements inpEmpty "2024-01-01 00:00:00").ok = false ∧
        (generate_requirements inpEmpty "2024-01-01 00:00:00").manifest = none ∧
        (("No Python files found to analyze in " ++ inpEmpty.project_dir)
            ∈ (generate_requirements inpEmpty "2024-01-01 00:00:00").msgs ∨
          "No third-party libraries detected in the code."
            ∈ (generate_requirements inpEmpty "2024-01-01 00:00:00").msgs)) :=
  ⟨Or.inl rfl, generate_nothing_to_do inpEmpty "2024-01-01 00:00:00" (Or.inl rfl)⟩

/-! ## Claim C6: generate is idempotent up to the timestamp line -/

/-- Claim C6: two `generate_requirements` runs over the same source files,
the same classifier environment and the same installed-package environment
write manifests that agree line for line except for the `# Date:` comment. -/
theorem generate_idempotent_mod_timestamp (inp : GenInput) (t1 t2 : String)
    (h : (generate_requirements inp t1).ok = true) :
    ∃ pre post,
      (generate_requirements inp t1).manifest = some (pre ++ ("# Date: " ++ t1) :: post) ∧
      (generate_requirements inp t2).manifest = some (pre ++ ("# Date: " ++ t2) :: post) := by
  obtain ⟨h1, h2⟩ := (generate_ok_iff inp t1).mp h
  refine ⟨["# Automatically generated by pythonDependencies.py"],
    ("# Project: " ++ inp.project_name) :: "" ::
      ((if notInstalledOf inp.pipVersion (sortStrings (thirdPartyOf inp)) = [] then []
        else
         ["# WARNING: The following packages were detected in your code but are not installed.",
          "# Install them and regenerate this file to include version numbers.",
          "# You can install all dependencies with: pip install -r requirements.txt",
          ""]) ++
       (sortStrings (thirdPartyOf inp)).map (requirementLine inp.pipVersion)), ?_, ?_⟩
  · rw [generate_manifest_eq inp t1 h1 h2]
    rfl
  · rw [generate_manifest_eq inp t2 h1 h2]
    rfl

/-- Witness for claim C6 at a concrete project and two timestamps. -/
theorem generate_idempotent_mod_timestamp_witness :
    (generate_requirements inpBs4 "2024-01-01 00:00:00").ok = true ∧
      ∃ pre post,
        (generate_requirements inpBs4 "2024-01-01 00:00:00").manifest
            = some (pre ++ ("# Date: " ++ "2024-01-01 00:00:00") :: post) ∧
          (generate_requirements inpBs4 "2025-06-30 12:00:00").manifest
            = some (pre ++ ("# Date: " ++ "2025-06-30 12:00:00") :: post) :=
  ⟨by decide,
   generate_idempotent_mod_timestamp inpBs4 "2024-01-01 00:00:00" "2025-06-30 12:00:00" (by decide)⟩

/-! ## Claim C9: duplicate distribution names are not deduplicated -/

/-- Claim C9: with both `sklearn` and `joblib` detected, the generated
manifest lists the distribution `scikit-learn` on two separate specifier
lines — generate does not deduplicate by distribution name. -/
theorem generate_duplicate_distribution_lines :
    (generate_requirements inpSk "2024-01-01 00:00:00").ok = true ∧
      ((generate_requirements inpSk "2024-01-01 00:00:00").manifest.getD []).count
        "scikit-learn" = 2 := by
  decide

/-! ## Claim C3: alias substitution in the generated manifest -/

/-- Counterexample to claim C3 as stated: `psycopg2` is a key of the alias
table, it is detected as third-party, and its specifier line in the generated
manifest is `psycopg2-binary` — which begins with the raw import name
`psycopg2`, contradicting "never with the raw import name". -/
theorem alias_line_never_raw_counterexample :
    "psycopg2" ∈ thirdPartyOf inpPsy ∧
      (MODULE_TO_PACKAGE.lookup "psycopg2").isSome = true ∧
      requirementLine inpPsy.pipVersion "psycopg2" = "psycopg2-binary" ∧
      ((generate_requirements inpPsy "2024-01-01 00:00:00").manifest.getD []).contains
        "psycopg2-binary" = true ∧
      strStarts "psycopg2-binary" "psycopg2" = true := by
  decide

/-- Claim C3 as amended: the specifier line written for a detected
third-party import that is a key of the alias table begins with the mapped
distribution name (it may begin with the raw import name, but only because
the mapped name extends it, as for `psycopg2` → `psycopg2-binary`); in particular
the line written for `bs4` begins with `beautifulsoup4` and does not begin
with `bs4`. -/
theorem alias_line_starts_with_mapped (inp : GenInput) (now m : String)
    (hf : inp.files.length ≠ 0) (hm : m ∈ thirdPartyOf inp)
    (hk : (MODULE_TO_PACKAGE.lookup m).isSome = true) :
    ∃ lines,
      (generate_requirements inp now).manifest = some lines ∧
      requirementLine inp.pipVersion m ∈ lines ∧
      strStarts (requirementLine inp.pipVersion m) (getPackageName m) = true ∧
      (m = "bs4" → strStarts (requirementLine inp.pipVersion m) "bs4" = false) := by
  have h2 : thirdPartyOf inp ≠ [] := by
    intro h
    rw [h] at hm
    exact List.not_mem_nil m hm
  refine ⟨_, generate_manifest_eq inp now hf h2, ?_, ?_, ?_⟩
  · unfold manifestLines
    refine List.mem_append.mpr (Or.inr ?_)
    exact List.mem_map.mpr ⟨m, (mem_sortStrings _ m).mpr hm, rfl⟩
  · unfold requirementLine strStarts
    cases hv : inp.pipVersion (getPackageName m) with
    | none =>
      simp [isPrefixOf_append_self (getPackageName m).data []]
    | some v =>
      show (getPackageName m).data.isPrefixOf ((getPackageName m ++ ">=" ++ v).data) = true
      rw [String.data_append, String.data_append, List.append_assoc]
      exact isPrefixOf_append_self _ _
  · rintro rfl
    unfold requirementLine
    cases hv : inp.pipVersion (getPackageName "bs4") with
    | none => rfl
    | some v => rfl

/-- Witness for claim C3 (amended) at the concrete `bs4` project. -/
theorem alias_line_starts_with_mapped_witness :
    (inpBs4.files.length ≠ 0 ∧ "bs4" ∈ thirdPartyOf inpBs4 ∧
        (MODULE_TO_PACKAGE.lookup "bs4").isSome = true) ∧
      ∃ lines,
        (generate_requirements inpBs4 "2024-01-01 00:00:00").manifest = some lines ∧
        requirementLine inpBs4.pipVersion "bs4" ∈ lines ∧
        strStarts (requirementLine inpBs4.pipVersion "bs4") (getPackageName "bs4") = true ∧
        ("bs4" = "bs4" → strStarts (requirementLine inpBs4.pipVersion "bs4") "bs4" = false) :=
  ⟨⟨by decide, by decide, by decide⟩,
   alias_line_starts_with_mapped inpBs4 "2024-01-01 00:00:00" "bs4"
     (by decide) (by decide) (by decide)⟩

/-! ## Claim C5: check outcomes as a function of the missing set -/

/-- Claim C5: with the manifest present, `check_and_install_dependencies`
returns `True` when no entry is missing an installed version; with
auto-install disabled and at least one missing entry it prints the manual
`pip install` command naming the missing packages and returns `False`; with
auto-install enabled it returns `True` exactly when every missing package's
individual install succeeds. -/
theorem check_missing_behaviour (env : CheckEnv) (lines : List String)
    (hm : env.requirements_file = some lines) :
    (missingPackages env.get_package_version (parsePackages lines) = [] →
      ∀ auto_install, (check_and_install_dependencies env auto_install).ok = true) ∧
    (missingPackages env.get_package_version (parsePackages lines) ≠ [] →
      (check_and_install_dependencies env false).ok = false ∧
      ("pip install " ++ String.intercalate " "
          (missingPackages env.get_package_version (parsePackages lines)))
        ∈ (check_and_install_dependencies env false).msgs) ∧
    ((check_and_install_dependencies env true).ok = true ↔
      (missingPackages env.get_package_version (parsePackages lines)).all
        env.pip_install_ok = true) := by
  unfold check_and_install_dependencies
  rw [hm]
  by_cases hp : parsePackages lines = []
  · have hmiss0 : missingPackages env.get_package_version [] = [] := rfl
    simp [hp, hmiss0]
  · by_cases hmiss : missingPackages env.get_package_version (parsePackages lines) = []
    · simp [hp, hmiss]
    · simp [hp, hmiss]

/-- Witness for claim C5: the `nonexistent-package-xyz` scenario with
auto-install disabled. -/
theorem check_missing_behaviour_witness :
    cenvMiss.requirements_file = some ["nonexistent-package-xyz"] ∧
      ((check_and_install_dependencies cenvMiss false).ok = false ∧
        ("pip install " ++ String.intercalate " "
            (missingPackages cenvMiss.get_package_version
              (parsePackages ["nonexistent-package-xyz"])))
          ∈ (check_and_install_dependencies cenvMiss false).msgs) :=
  ⟨rfl, (check_missing_behaviour cenvMiss ["nonexistent-package-xyz"] rfl).2.1 (by decide)⟩

/-! ## Claim C8: a missing manifest aborts check and update -/

/-- Claim C8: when the requirements file does not exist, both
`check_and_install_dependencies` and `update_dependencies` print the error
with the instruction to generate first and return `False`, running no
subprocess; both operations are total functions of their environment, so no
exception escapes. -/
theorem missing_manifest_aborts (cenv : CheckEnv) (uenv : UpdateEnv) (ginp : GenInput)
    (now : String) (auto_install : Bool)
    (hc : cenv.requirements_file = none) (hu : uenv.requirements_file = none) :
    (check_and_install_dependencies cenv auto_install).ok = false ∧
    (check_and_install_dependencies cenv auto_install).installs = [] ∧
    ("Error: File " ++ cenv.requirements_path ++ " not found.")
      ∈ (check_and_install_dependencies cenv auto_install).msgs ∧
    "You can generate it with the --generate option.\n"
      ∈ (check_and_install_dependencies cenv auto_install).msgs ∧
    (update_dependencies uenv ginp now).ok = false ∧
    (update_dependencies uenv ginp now).upgrades = [] ∧
    ("Error: File " ++ uenv.requirements_path ++ " not found.")
      ∈ (update_dependencies uenv ginp now).msgs ∧
    "You can generate it with the --generate option.\n"
      ∈ (update_dependencies uenv ginp now).msgs := by
  unfold check_and_install_dependencies update_dependencies
  rw [hc, hu]
  simp

/-- Witness for claim C8: concrete check and update environments whose
requirements file is absent. -/
theorem missing_manifest_aborts_witness :
    (cenvNone.requirements_file = none ∧ uenvNone.requirements_file = none) ∧
      ((check_and_install_dependencies cenvNone true).ok = false ∧
        (check_and_install_dependencies cenvNone true).installs = [] ∧
        ("Error: File " ++ cenvNone.requirements_path ++ " not found.")
          ∈ (check_and_install_dependencies cenvNone true).msgs ∧
        "You can generate it with the --generate option.\n"
          ∈ (check_and_install_dependencies cenvNone true).msgs ∧
        (update_dependencies uenvNone inpEmpty "2024-01-01 00:00:00").ok = false ∧
        (update_dependencies uenvNone inpEmpty "2024-01-01 00:00:00").upgrades = [] ∧
        ("Error: File " ++ uenvNone.requirements_path ++ " not found.")
          ∈ (update_dependencies uenvNone inpEmpty "2024-01-01 00:00:00").msgs ∧
        "You can generate it with the --generate option.\n"
          ∈ (update_dependencies uenvNone inpEmpty "2024-01-01 00:00:00").msgs) :=
  ⟨⟨rfl, rfl⟩,
   missing_manifest_aborts cenvNone uenvNone inpEmpty "2024-01-01 00:00:00" true rfl rfl⟩

/-! ## Claim C10: manifests of only comments and blanks -/

theorem space_ne_hash {c : Char} (h : isSpaceChar c = true) : c ≠ '#' := by
  unfold isSpaceChar at h
  rcases Bool.or_eq_true_iff.mp h with h | h
  · rcases Bool.or_eq_true_iff.mp h with h | h
    · rcases Bool.or_eq_true_iff.mp h with h | h
      · rcases Bool.or_eq_true_iff.mp h with h | h
        · rcases Bool.or_eq_true_iff.mp h with h | h
          · rw [decide_eq_true_eq] at h
            subst h
            decide
          · rw [decide_eq_true_eq] at h
            subst h
            decide
        · rw [decide_eq_true_eq] at h
          subst h
          decide
      · rw [decide_eq_true_eq] at h
        subst h
        decide
    · rw [decide_eq_true_eq] at h
      subst h
      decide
  · rw [decide_eq_true_eq] at h
    subst h
    decide

theorem all_space_of_pyStrip_nil : ∀ l : List Char, pyStrip l = [] →
    ∀ c ∈ l, isSpaceChar c = true := by
  intro l
  induction l with
  | nil => intro _ c hc; exact absurd hc (List.not_mem_nil c)
  | cons a as ih =>
    intro h c hc
    by_cases ha : isSpaceChar a = true
    · have hstep : pyStrip (a :: as) = pyStrip as := by
        unfold pyStrip
        rw [List.dropWhile_cons_of_pos ha]
      rcases List.mem_cons.mp hc with rfl | hc
      · exact ha
      · exact ih (hstep ▸ h) c hc
    · exfalso
      have hstep : pyStrip (a :: as) = ((a :: as).reverse.dropWhile isSpaceChar).reverse := by
        unfold pyStrip
        rw [List.dropWhile_cons_of_neg ha]
      rw [hstep, List.reverse_eq_nil_iff] at h
      have hmem : a ∈ (a :: as).reverse := by
        rw [List.mem_reverse]
        exact List.mem_cons_self a as
      exact ha (List.dropWhile_eq_nil_iff.mp h a hmem)

theorem pyStrip_all_space (l : List Char) (h : ∀ c ∈ l, isSpaceChar c = true) :
    pyStrip l = [] := by
  unfold pyStrip
  rw [List.dropWhile_eq_nil_iff.mpr h]
  rfl

theorem takeWhile_append_all (p : Char → Bool) :
    ∀ w u : List Char, (∀ c ∈ w, p c = true) → (w ++ u).takeWhile p = w ++ u.takeWhile p
  | [], u, _ => by simp
  | c :: cs, u, h => by
    have hc : p c = true := h c (List.mem_cons_self c cs)
    have hcs : ∀ x ∈ cs, p x = true := fun x hx => h x (List.mem_cons.mpr (Or.inr hx))
    simp only [List.cons_append, List.takeWhile_cons_of_pos hc,
      takeWhile_append_all p cs u hcs]

theorem pyStrip_head (l : List Char) (c : Char) (t : List Char)
    (h : pyStrip l = c :: t) : ∃ rest, l.dropWhile isSpaceChar = c :: rest := by
  unfold pyStrip at h
  obtain ⟨pre, hpre⟩ := List.dropWhile_suffix (l := (l.dropWhile isSpaceChar).reverse) isSpaceChar
  have hdw : (l.dropWhile isSpaceChar).reverse.dropWhile isSpaceChar = (c :: t).reverse := by
    rw [← h, List.reverse_reverse]
  rw [hdw] at hpre
  refine ⟨t ++ pre.reverse, ?_⟩
  have := congrArg List.reverse hpre
  rw [List.reverse_append, List.reverse_reverse, List.reverse_reverse] at this
  rw [← this]
  rfl

theorem stripComment_of_commentOrBlank (l : String) (h : commentOrBlank l = true) :
    stripComment l = "" := by
  unfold commentOrBlank at h
  rcases Bool.or_eq_true_iff.mp h with h | h
  · have hnil : pyStrip l.data = [] := by
      have h' : pyStripStr l = "" := eq_of_beq h
      exact congrArg String.data h'
    have hall : ∀ c ∈ l.data, isSpaceChar c = true := all_space_of_pyStrip_nil l.data hnil
    have htake : l.data.takeWhile (fun c => c ≠ '#') = l.data :=
      List.takeWhile_eq_self_iff.mpr fun x hx => by
        simpa using space_ne_hash (hall x hx)
    unfold stripComment pyStripStr
    show String.mk (pyStrip (l.data.takeWhile (fun c => c ≠ '#'))) = ""
    rw [htake, hnil]
  · have h' : ("#".data).isPrefixOf (pyStrip l.data) = true := h
    cases hs : pyStrip l.data with
    | nil =>
      rw [hs] at h'
      exact absurd h' (by decide)
    | cons c t =>
      rw [hs] at h'
      have hch : c = '#' := by
        have : ('#' == c && List.isPrefixOf [] t) = true := h'
        rcases Bool.and_eq_true_iff.mp this with ⟨h1, _⟩
        exact (beq_iff_eq.mp h1).symm
      subst hch
      obtain ⟨rest, hd1⟩ := pyStrip_head l.data '#' t hs
      have hsplit : l.data.takeWhile isSpaceChar ++ ('#' :: rest) = l.data := by
        rw [← hd1]
        exact List.takeWhile_append_dropWhile _ _
      have hw : ∀ x ∈ l.data.takeWhile isSpaceChar, isSpaceChar x = true :=
        fun x hx => List.mem_takeWhile_imp hx
      have htake : l.data.takeWhile (fun c => c ≠ '#') = l.data.takeWhile isSpaceChar := by
        conv_lhs => rw [← hsplit]
        rw [takeWhile_append_all _ _ _
          (fun x hx => by simpa using space_ne_hash (hw x hx))]
        simp
      unfold stripComment pyStripStr
      show String.mk (pyStrip (l.data.takeWhile (fun c => c ≠ '#'))) = ""
      rw [htake, pyStrip_all_space _ hw]

theorem parsePackages_all_blank (lines : List String)
    (h : ∀ l ∈ lines, stripComment l = "") : parsePackages lines = [] := by
  unfold parsePackages
  rw [List.filter_eq_nil_iff]
  intro a ha
  rcases List.mem_map.mp ha with ⟨l, hl, rfl⟩
  simp [h l hl]

/-- Claim C10: on a manifest that exists but contains only comment lines and
blank lines, `check_and_install_dependencies` and `update_dependencies` both
print their no-dependencies message and return `True`, and no `pip install`
or `pip install --upgrade` subprocess runs. -/
theorem comment_only_manifest_noop (cenv : CheckEnv) (uenv : UpdateEnv) (ginp : GenInput)
    (now : String) (lines : List String) (auto_install : Bool)
    (hc : cenv.requirements_file = some lines) (hu : uenv.requirements_file = some lines)
    (hl : ∀ l ∈ lines, commentOrBlank l = true) :
    (check_and_install_dependencies cenv auto_install).ok = true ∧
    (check_and_install_dependencies cenv auto_install).installs = [] ∧
    "No dependencies found in the file.\n"
      ∈ (check_and_install_dependencies cenv auto_install).msgs ∧
    (update_dependencies uenv ginp now).ok = true ∧
    (update_dependencies uenv ginp now).upgrades = [] ∧
    "No dependencies found to update.\n"
      ∈ (update_dependencies uenv ginp now).msgs := by
  have hp : parsePackages lines = [] :=
    parsePackages_all_blank lines fun l hli => stripComment_of_commentOrBlank l (hl l hli)
  unfold check_and_install_dependencies update_dependencies
  rw [hc, hu]
  simp [hp]

/-- Witness for claim C10 at a concrete comment-and-blank manifest. -/
theorem comment_only_manifest_noop_witness :
    (cenvComments.requirements_file = some commentLines ∧
        uenvComments.requirements_file = some commentLines ∧
        ∀ l ∈ commentLines, commentOrBlank l = true) ∧
      ((check_and_install_dependencies cenvComments true).ok = true ∧
        (check_and_install_dependencies cenvComments true).installs = [] ∧
        "No dependencies found in the file.\n"
          ∈ (check_and_install_dependencies cenvComments true).msgs ∧
        (update_dependencies uenvComments inpEmpty "2024-01-01 00:00:00").ok = true ∧
        (update_dependencies uenvComments inpEmpty "2024-01-01 00:00:00").upgrades = [] ∧
        "No dependencies found to update.\n"
          ∈ (update_dependencies uenvComments inpEmpty "2024-01-01 00:00:00").msgs) :=
  ⟨⟨rfl, rfl, by decide⟩,
   comment_only_manifest_noop cenvComments uenvComments inpEmpty "2024-01-01 00:00:00"
     commentLines true rfl rfl (by decide)⟩

/-! ## Claim C7: the generate → check round-trip -/

/-- Counterexample to claim C7 as stated: `psycopg2` is detected but not
installed, so generate succeeds and writes the bare line `psycopg2-binary`;
a check in the same installed-package environment then reports that very
package as missing (and fails with auto-install disabled). -/
theorem generate_then_check_counterexample :
    (generate_requirements inpPsy "2024-01-01 00:00:00").ok = true ∧
      missingPackages inpPsy.pipVersion
        (parsePackages ((generate_requirements inpPsy "2024-01-01 00:00:00").manifest.getD []))
        = ["psycopg2-binary"] ∧
      (check_and_install_dependencies
        ⟨"/proj/requirements.txt",
         (generate_requirements inpPsy "2024-01-01 00:00:00").manifest,
         inpPsy.pipVersion, fun _ => false⟩ false).ok = false := by
  decide

theorem stripComment_hash_head (s : String) (xs : List Char) (h : s.data = '#' :: xs) :
    stripComment s = "" := by
  unfold stripComment pyStripStr
  show String.mk (pyStrip (s.data.takeWhile (fun c => c ≠ '#'))) = ""
  rw [h, List.takeWhile_cons_of_neg (by decide)]
  rfl

theorem parsePackages_append (A B : List String) :
    parsePackages (A ++ B) = parsePackages A ++ parsePackages B := by
  unfold parsePackages
  rw [List.map_append, List.filter_append]

theorem parsePackages_header (now project_name : String) :
    parsePackages
      ["# Automatically generated by pythonDependencies.py",
       "# Date: " ++ now, "# Project: " ++ project_name, ""] = [] := by
  have h0 : stripComment "# Automatically generated by pythonDependencies.py" = "" := rfl
  have hd : stripComment ("# Date: " ++ now) = "" :=
    stripComment_hash_head _ (" Date: ".data ++ now.data) (by rw [String.data_append]; rfl)
  have hp : stripComment ("# Project: " ++ project_name) = "" :=
    stripComment_hash_head _ (" Project: ".data ++ project_name.data)
      (by rw [String.data_append]; rfl)
  have he : stripComment "" = "" := rfl
  unfold parsePackages
  simp [h0, hd, hp, he]

theorem parsePackages_requirement_lines (pipv : String → Option String) :
    ∀ L : List String,
      (∀ m ∈ L, ∃ v, pipv (getPackageName m) = some v ∧
        stripComment (getPackageName m ++ ">=" ++ v) = getPackageName m ++ ">=" ++ v ∧
        basePackage (getPackageName m ++ ">=" ++ v) = getPackageName m) →
      parsePackages (L.map (requirementLine pipv)) = L.map (requirementLine pipv) ∧
        missingPackages pipv (L.map (requirementLine pipv)) = []
  | [], _ => ⟨rfl, rfl⟩
  | m :: ms, h => by
    obtain ⟨v, hv, hsc, hbp⟩ := h m (List.mem_cons_self m ms)
    have hms := parsePackages_requirement_lines pipv ms
      (fun x hx => h x (List.mem_cons.mpr (Or.inr hx)))
    have hline : requirementLine pipv m = getPackageName m ++ ">=" ++ v := by
      unfold requirementLine
      rw [hv]
    have hne : getPackageName m ++ ">=" ++ v ≠ "" := by
      intro heq
      have hd := congrArg String.data heq
      rw [String.data_append, String.data_append] at hd
      rcases List.append_eq_nil.mp hd with ⟨hd1, -⟩
      rcases List.append_eq_nil.mp hd1 with ⟨-, hd2⟩
      exact absurd hd2 (by decide)
    have hstep : parsePackages ((m :: ms).map (requirementLine pipv)) =
        requirementLine pipv m :: parsePackages (ms.map (requirementLine pipv)) := by
      unfold parsePackages
      rw [List.map_cons, List.map_cons, hline, hsc, List.filter_cons,
        if_pos (decide_eq_true hne)]
    have hmiss : missingPackages pipv ((m :: ms).map (requirementLine pipv)) =
        missingPackages pipv (ms.map (requirementLine pipv)) := by
      unfold missingPackages
      rw [List.map_cons, List.filter_cons, hline, hbp, hv, if_neg]
      simp
    constructor
    · rw [hstep, hms.1, List.map_cons]
    · rw [hmiss, hms.2]

/-- Claim C7 as amended: if `generate_requirements` succeeds and every
detected third-party package had a resolvable installed version at generate
time (with a well-formed package name and version string — no comment or
version-operator characters, no surrounding whitespace, as real names and
versions have), then a check run on the generated manifest in a matching
installed-package environment finds zero missing packages and succeeds
without invoking any install. -/
theorem generate_then_check_clean (inp : GenInput) (now : String)
    (hok : (generate_requirements inp now).ok = true)
    (hinst : ∀ m ∈ thirdPartyOf inp, ∃ v,
      inp.pipVersion (getPackageName m) = some v ∧
      stripComment (getPackageName m ++ ">=" ++ v) = getPackageName m ++ ">=" ++ v ∧
      basePackage (getPackageName m ++ ">=" ++ v) = getPackageName m) :
    ∃ lines,
      (generate_requirements inp now).manifest = some lines ∧
      missingPackages inp.pipVersion (parsePackages lines) = [] ∧
      ∀ (cenv : CheckEnv) (auto_install : Bool),
        cenv.requirements_file = some lines →
        cenv.get_package_version = inp.pipVersion →
        (check_and_install_dependencies cenv auto_install).ok = true ∧
        (check_and_install_dependencies cenv auto_install).installs = [] := by
  obtain ⟨h1, h2⟩ := (generate_ok_iff inp now).mp hok
  have hs : ∀ m ∈ sortStrings (thirdPartyOf inp), ∃ v,
      inp.pipVersion (getPackageName m) = some v ∧
      stripComment (getPackageName m ++ ">=" ++ v) = getPackageName m ++ ">=" ++ v ∧
      basePackage (getPackageName m ++ ">=" ++ v) = getPackageName m :=
    fun m hm => hinst m ((mem_sortStrings _ m).mp hm)
  have hreq := parsePackages_requirement_lines inp.pipVersion (sortStrings (thirdPartyOf inp)) hs
  have hni : notInstalledOf inp.pipVersion (sortStrings (thirdPartyOf inp)) = [] := by
    unfold notInstalledOf
    rw [List.filterMap_eq_nil_iff]
    intro m hm
    obtain ⟨v, hv, -, -⟩ := hs m hm
    simp [hv]
  have hparse : parsePackages (manifestLines now inp.project_name
      (notInstalledOf inp.pipVersion (sortStrings (thirdPartyOf inp)))
      ((sortStrings (thirdPartyOf inp)).map (requirementLine inp.pipVersion))) =
      (sortStrings (thirdPartyOf inp)).map (requirementLine inp.pipVersion) := by
    rw [hni]
    unfold manifestLines
    rw [if_pos rfl, parsePackages_append, parsePackages_append, parsePackages_header,
      hreq.1]
    rfl
  refine ⟨_, generate_manifest_eq inp now h1 h2, ?_, ?_⟩
  · rw [hparse]
    exact hreq.2
  · intro cenv auto_install hfile hver
    unfold check_and_install_dependencies
    rw [hfile]
    simp only [hparse, hver]
    by_cases hre : (sortStrings (thirdPartyOf inp)).map (requirementLine inp.pipVersion) = []
    · simp [hre]
    · simp [hre, hreq.2]

/-- Witness for claim C7 (amended): the `bs4` project with `beautifulsoup4`
installed at 4.12.2. -/
theorem generate_then_check_clean_witness :
    (generate_requirements inpBs4 "2024-01-01 00:00:00").ok = true ∧
      ∃ lines,
        (generate_requirements inpBs4 "2024-01-01 00:00:00").manifest = some lines ∧
        missingPackages inpBs4.pipVersion (parsePackages lines) = [] ∧
        ∀ (cenv : CheckEnv) (auto_install : Bool),
          cenv.requirements_file = some lines →
          cenv.get_package_version = inpBs4.pipVersion →
          (check_and_install_dependencies cenv auto_install).ok = true ∧
          (check_and_install_dependencies cenv auto_install).installs = [] :=
  ⟨by decide,
   generate_then_check_clean inpBs4 "2024-01-01 00:00:00" (by decide) (by
    intro m hm
    have hm' : m = "bs4" := by
      have h : thirdPartyOf inpBs4 = ["bs4"] := by decide
      rw [h] at hm
      simpa using hm
    subst hm'
    exact ⟨"4.12.2", by decide, by decide, by decide⟩)⟩

end PyDeps
